import Mathlib

/-!
Verification of the command-arbitration core of `drone_server.py` (with the
stand-alone keyboard tool `takeoff.py` alongside it).

The embedding translates each Python function into a pure Lean function over
explicit state.  Floats are modelled as rationals, timestamps as rationals,
and readings that may be absent or raise as `Option` values.  Behaviour of
the external vehicle (whether a mode switch is eventually observed, whether
arming is confirmed, ...) is supplied through small environment records, so
each function stays a faithful transcription of the Python control flow.
-/

namespace DroneServer

/-- A Python-2 dynamic value, as far as the code under study needs it: the
second positional argument of `ensure_mode` is declared as an int
(`attempts=3`) but one caller passes a string. -/
inductive PyVal where
  | int (n : Nat)
  | str (s : String)
deriving DecidableEq, Repr

/-- A Python exception that escapes a modelled function. -/
inductive PyErr where
  | typeError (msg : String)
deriving DecidableEq, Repr

/-- ASCII upper-casing of one character, as Python's `str.upper` does on the
mode names appearing in this program. -/
def pyUpperChar (c : Char) : Char :=
  if 97 ≤ c.toNat ∧ c.toNat ≤ 122 then Char.ofNat (c.toNat - 32) else c

/-- Python's `str.upper` on ASCII strings (all mode names are ASCII). -/
def pyUpper (s : String) : String :=
  String.mk (s.data.map pyUpperChar)

/-- The last joystick velocity command, `last_velocity_cmd` in the source:
a dict with keys vx, vy, vz, yaw_rate. -/
structure VelCmd where
  vx : ℚ
  vy : ℚ
  vz : ℚ
  yaw_rate : ℚ
deriving DecidableEq, Repr

/-- `safe_alt()`: reads `vehicle.location.global_relative_frame.alt` and
returns it as a float; on a missing vehicle, missing location, `None`
altitude, or a raising read it returns 0.0.  All of those failure shapes are
one `none` here. -/
def safe_alt (reading : Option ℚ) : ℚ :=
  match reading with
  | some a => a
  | none => 0

/-- The `VELOCITY_TIMEOUT` constant: 0.5 s watchdog on joystick commands. -/
def VELOCITY_TIMEOUT : ℚ := 1/2

/-- The MAVLink `set_position_target_local_ned` message built by
`send_ned_velocity`.  Fields follow the arguments of the
`set_position_target_local_ned_encode` call in the source; position and
acceleration slots are constant 0 there and are omitted. -/
structure NedMessage where
  time_boot_ms : Nat
  frame : Nat
  type_mask : Nat
  vx : ℚ
  vy : ℚ
  vz : ℚ
  yaw : ℚ
  yaw_rate : ℚ
deriving DecidableEq, Repr

/-- `send_ned_velocity(vx, vy, vz, yaw_rate)`: returns the encoded message
handed to `vehicle.send_mavlink`, or `none` when no vehicle is connected.
The source passes literal `0` in the yaw and yaw_rate slots of the encode
call (its comment marks yaw_rate as not forwarded yet), so the encoded
message ignores the `yaw_rate` argument. -/
def send_ned_velocity (vehiclePresent : Bool) (vx vy vz yaw_rate : ℚ) :
    Option NedMessage :=
  if !vehiclePresent then none
  else some { time_boot_ms := 0, frame := 1, type_mask := 0b0000111111000111,
              vx := vx, vy := vy, vz := vz, yaw := 0, yaw_rate := 0 }

/-- The shared server state read by one `control_loop` iteration.
`modeName = none` models a raising read of `vehicle.mode.name` (the loop
then keeps its initial `""`), and `altitude = none` an unreadable altitude
(`safe_alt` yields 0). -/
structure ServerState where
  vehiclePresent : Bool
  armed : Bool
  modeName : Option String
  takeoff_in_progress : Bool
  landing_in_progress : Bool
  altitude : Option ℚ
  last_velocity_cmd : VelCmd
  last_joystick_time : ℚ
deriving DecidableEq, Repr

/-- One iteration of the `while True` body of `control_loop`, at wall-clock
time `now`.  Returns the velocity message sent this tick (if any) together
with the updated shared state; `time.sleep` calls are timing only and are
not modelled. -/
def control_tick (s : ServerState) (now : ℚ) : Option NedMessage × ServerState :=
  if s.vehiclePresent && s.armed then
    if s.takeoff_in_progress || s.landing_in_progress then
      (none, s)
    else
      let mode_name := s.modeName.getD ""
      if mode_name ∈ (["GUIDED", "GUIDED_NOGPS", "BRAKE", "POSHOLD"] : List String) then
        let age := now - s.last_joystick_time
        let cmd := s.last_velocity_cmd
        if age > VELOCITY_TIMEOUT then
          (send_ned_velocity s.vehiclePresent 0 0 0 0, s)
        else
          (send_ned_velocity s.vehiclePresent cmd.vx cmd.vy cmd.vz cmd.yaw_rate, s)
      else if mode_name = "LAND" then
        if safe_alt s.altitude ≤ 1/5 then
          if s.landing_in_progress then
            (none, { s with landing_in_progress := false })
          else
            (none, s)
        else
          (none, s)
      else
        (none, s)
  else
    (none, s)

/-- Environment for one `ensure_mode` call: what the vehicle does.
`initialMode` is the result of the entry read of `vehicle.mode.name`
(`none` = the read raised, swallowed by the bare `except`);
`pollSeesTarget i` tells whether the half-second poll window of attempt `i`
ever observes the target mode (a raising `vehicle.mode` assignment is
treated exactly like a window that never sees the target, which is also the
source's control flow). -/
structure ModeEnv where
  initialMode : Option String
  pollSeesTarget : Nat → Bool

/-- The `for i in range(attempts)` body of `ensure_mode`: each attempt
assigns `vehicle.mode` (one mode write) and then polls; on a successful
poll it returns True.  Returns the boolean result and the number of mode
writes issued. -/
def attemptLoop (poll : Nat → Bool) : Nat → Nat → Nat → Bool × Nat
  | 0, _, writes => (false, writes)
  | Nat.succ k, i, writes =>
      if poll i then (true, writes + 1)
      else attemptLoop poll k (i + 1) (writes + 1)

/-- `ensure_mode(target, attempts=3, wait_each=6.0)`.  Returns the boolean
result together with the number of `vehicle.mode` writes issued, or the
exception that escapes.  The dynamic `attempts` matters: `do_takeoff` calls
`ensure_mode("GUIDED", "GUIDED_NOGPS")`, binding the string to `attempts`,
and Python 2's `range` raises TypeError on a string argument — but only
after the no-vehicle and already-in-target early returns. -/
def ensure_mode (vehiclePresent : Bool) (env : ModeEnv) (target : String)
    (attempts : PyVal) : Except PyErr (Bool × Nat) :=
  if !vehiclePresent then Except.ok (false, 0)
  else if env.initialMode = some (pyUpper target) then Except.ok (true, 0)
  else
    match attempts with
    | PyVal.str _ =>
        Except.error (PyErr.typeError "range() integer end argument expected, got str.")
    | PyVal.int n => Except.ok (attemptLoop env.pollSeesTarget n 0 0)

/-- `arm_vehicle()`: returns the boolean result, the armed flag observed at
return, and the number of `vehicle.armed` writes issued.  `armConfirmed`
is the environment: whether the vehicle reports armed within the 10 s
poll. -/
def arm_vehicle (vehiclePresent armed : Bool) (armConfirmed : Bool) :
    Bool × Bool × Nat :=
  if !vehiclePresent then (false, armed, 0)
  else if armed then (true, armed, 0)
  else (armConfirmed, armConfirmed, 1)

/-- `disarm_vehicle()`: returns the boolean result, the armed flag observed
at return, and the number of `vehicle.armed` writes issued.
`disarmConfirmed` is the environment: whether the vehicle reports disarmed
within the 8 s poll.  Order of the guards follows the source: the
no-vehicle check, then the already-disarmed early success, then the
altitude guard (`safe_alt() > 0.2`), then the write and poll. -/
def disarm_vehicle (vehiclePresent armed : Bool) (altReading : Option ℚ)
    (disarmConfirmed : Bool) : Bool × Bool × Nat :=
  if !vehiclePresent then (false, armed, 0)
  else if !armed then (true, armed, 0)
  else if safe_alt altReading > 1/5 then (false, armed, 0)
  else (disarmConfirmed, !disarmConfirmed, 1)

/-- The takeoff-related shared flags: `takeoff_in_progress` and
`takeoff_target_alt`. -/
structure TakeoffFlags where
  takeoff_in_progress : Bool
  takeoff_target_alt : Option ℚ
deriving DecidableEq, Repr

/-- Environment for one `do_takeoff` invocation: the altitude reading used
by the entry guard, the mode-switch environment, whether the vehicle is
already armed and whether arming is confirmed within its poll, and whether
`vehicle.simple_takeoff` raises. -/
structure TakeoffEnv where
  altReading : Option ℚ
  modeEnv : ModeEnv
  armed : Bool
  armConfirmed : Bool
  simple_takeoff_raises : Bool

/-- How a `do_takeoff` invocation ends.  `raised e` means the exception `e`
escaped the function (killing the worker thread that runs it). -/
inductive TakeoffOutcome where
  | noVehicle
  | alreadyAirborne
  | raised (e : PyErr)
  | modeFailed
  | armFailed
  | takeoffCmdFailed
  | started
deriving DecidableEq, Repr

/-- `do_takeoff(target_alt)`: the takeoff sequencer up to (and including)
setting the shared flags; the watcher thread it spawns is modelled
separately by `watcher_final`.  Note the mode step passes the string
"GUIDED_NOGPS" as the `attempts` argument of `ensure_mode`, exactly as the
source does. -/
def do_takeoff (vehiclePresent : Bool) (env : TakeoffEnv) (target_alt : ℚ)
    (flags : TakeoffFlags) : TakeoffOutcome × TakeoffFlags :=
  if !vehiclePresent then (TakeoffOutcome.noVehicle, flags)
  else if safe_alt env.altReading > 1/2 then (TakeoffOutcome.alreadyAirborne, flags)
  else
    match ensure_mode vehiclePresent env.modeEnv "GUIDED" (PyVal.str "GUIDED_NOGPS") with
    | Except.error e => (TakeoffOutcome.raised e, flags)
    | Except.ok (modeOk, _) =>
      if !modeOk then (TakeoffOutcome.modeFailed, flags)
      else if !(arm_vehicle vehiclePresent env.armed env.armConfirmed).1 then
        (TakeoffOutcome.armFailed, flags)
      else if env.simple_takeoff_raises then (TakeoffOutcome.takeoffCmdFailed, flags)
      else (TakeoffOutcome.started,
            { takeoff_in_progress := true, takeoff_target_alt := some target_alt })

/-- How the takeoff watcher's polling loop ends: the target band
(98 % of the target) observed at poll `i`, or the 30 s overall timeout
(the fuel, 60 polls of 0.5 s, runs out). -/
inductive WatcherExit where
  | reached (pollIndex : Nat)
  | timeout
deriving DecidableEq, Repr

/-- The `while time.time() - t0 < 30` polling loop of the watcher inside
`do_takeoff`: poll `i` reads `safe_alt()` from `altTrace i` and the loop
breaks once the reading is at least 98 % of the target. -/
def watcherRun (altTrace : Nat → Option ℚ) (target : ℚ) : Nat → Nat → WatcherExit
  | 0, _ => WatcherExit.timeout
  | Nat.succ k, i =>
      if safe_alt (altTrace i) ≥ target * (49/50) then WatcherExit.reached i
      else watcherRun altTrace target k (i + 1)

/-- The complete watcher thread: run the polling loop, then execute the
code after the loop — which is the single assignment
`takeoff_in_progress = False`, on both exit paths; no statement of the
watcher touches `takeoff_target_alt`. -/
def watcher_final (altTrace : Nat → Option ℚ) (target : ℚ) (fuel : Nat)
    (flags : TakeoffFlags) : WatcherExit × TakeoffFlags :=
  (watcherRun altTrace target fuel 0,
   { takeoff_in_progress := false, takeoff_target_alt := flags.takeoff_target_alt })

/-- An inbound message on the /ws/control channel: either text that fails
`json.loads`, or a parsed command.  The parsed form carries the fields the
handler reads, with the numeric fields already of number type (the shapes
the operator channel sends). -/
inductive Command where
  | joystick (vx vy vz yaw_rate : ℚ)
  | mode (m : String)
  | arm
  | disarm
  | takeoff (alt : ℚ)
  | land
  | brake
  | diag
  | unknown (typ : String)
deriving DecidableEq, Repr

/-- An inbound frame: malformed JSON or a parsed command. -/
inductive InMsg where
  | malformed
  | cmd (c : Command)
deriving DecidableEq, Repr

/-- A reply written back on the control channel, keeping the fields the
claims are about: the "type" discriminator, and for acks the echoed command
name and the ok flag (extra fields like "msg", "requested", "alt" are
elided). -/
inductive Reply where
  | error (msg : String)
  | ack (cmd : String) (ok : Bool)
  | diag_reply
deriving DecidableEq, Repr

/-- Whether a reply has the acknowledgement shape
`{"type":"ack","cmd":...,"ok":...}`. -/
def isAckReply : Reply → Bool
  | Reply.ack _ _ => true
  | _ => false

/-- The command-name string the handler echoes in the "cmd" field of its
acknowledgement (for an unknown type, the received type string itself). -/
def cmdName : Command → String
  | Command.joystick _ _ _ _ => "joystick"
  | Command.mode _ => "mode"
  | Command.arm => "arm"
  | Command.disarm => "disarm"
  | Command.takeoff _ => "takeoff"
  | Command.land => "land"
  | Command.brake => "brake"
  | Command.diag => "diag"
  | Command.unknown typ => typ

/-- The mutable globals the control-message handler writes. -/
structure CmdState where
  last_velocity_cmd : VelCmd
  last_joystick_time : ℚ
  landing_in_progress : Bool
deriving DecidableEq, Repr

/-- Environment of one `ControlWS.on_message` call: vehicle presence, armed
flag, the result of reading `vehicle.mode.name` (`none` = the read raised),
the mode-switch environment used by the `ensure_mode` calls it makes, the
arm/disarm confirmations, and the altitude reading seen by
`disarm_vehicle`. -/
structure RouterEnv where
  vehiclePresent : Bool
  armed : Bool
  modeRead : Option String
  modeEnv : ModeEnv
  armConfirmed : Bool
  disarmConfirmed : Bool
  altReading : Option ℚ

/-- `ControlWS.on_message`, at wall-clock time `now`: the replies written
for one inbound frame, together with the updated globals.  Branch order
follows the source.  An `ensure_mode` call with the integer default
`attempts=3` cannot raise; the impossible error branches are rendered as
an empty reply list (what an uncaught exception would leave behind). -/
def on_message (env : RouterEnv) (st : CmdState) (now : ℚ) (m : InMsg) :
    List Reply × CmdState :=
  match m with
  | InMsg.malformed => ([Reply.error "invalid json"], st)
  | InMsg.cmd c =>
    match c with
    | Command.joystick vx vy vz yaw_rate =>
        if env.vehiclePresent && (env.modeRead == some "LOITER") then
          ([Reply.ack "joystick" false], st)
        else
          ([Reply.ack "joystick" true],
           { st with last_velocity_cmd := { vx := vx, vy := vy, vz := vz, yaw_rate := yaw_rate },
                     last_joystick_time := now })
    | Command.mode mstr =>
        let mu := pyUpper mstr
        if mu = "" then ([Reply.ack "mode" false], st)
        else
          match ensure_mode env.vehiclePresent env.modeEnv mu (PyVal.int 3) with
          | Except.ok (ok, _) => ([Reply.ack "mode" ok], st)
          | Except.error _ => ([], st)
    | Command.arm =>
        ([Reply.ack "arm" (arm_vehicle env.vehiclePresent env.armed env.armConfirmed).1], st)
    | Command.disarm =>
        ([Reply.ack "disarm"
           (disarm_vehicle env.vehiclePresent env.armed env.altReading env.disarmConfirmed).1],
         st)
    | Command.takeoff _ =>
        ([Reply.ack "takeoff" true], st)
    | Command.land =>
        match ensure_mode env.vehiclePresent env.modeEnv "LAND" (PyVal.int 3) with
        | Except.ok (ok, _) =>
            ([Reply.ack "land" ok],
             if ok then { st with landing_in_progress := true } else st)
        | Except.error _ => ([], st)
    | Command.brake =>
        if !env.vehiclePresent then ([Reply.ack "brake" false], st)
        else if !env.armed then ([Reply.ack "brake" false], st)
        else
          match env.modeRead with
          | none => ([Reply.ack "brake" false], st)
          | some mode_name =>
            if mode_name ∈ (["GUIDED", "GUIDED_NOGPS", "POSHOLD"] : List String) then
              ([Reply.ack "brake" true],
               { st with last_velocity_cmd := { vx := 0, vy := 0, vz := 0, yaw_rate := 0 },
                         last_joystick_time := 0 })
            else if mode_name = "LOITER" then ([Reply.ack "brake" true], st)
            else
              match ensure_mode env.vehiclePresent env.modeEnv "LOITER" (PyVal.int 3) with
              | Except.ok (ok, _) => ([Reply.ack "brake" ok], st)
              | Except.error _ => ([], st)
    | Command.diag => ([Reply.diag_reply], st)
    | Command.unknown typ => ([Reply.ack typ false], st)

end DroneServer

open DroneServer

/-- C1: on a control-loop tick with the vehicle available and armed, no
takeoff or landing in progress, the mode in the controllable set, and the
stored command older than the 0.5 s watchdog, the tick sends exactly the
zero velocity vector, whatever the stored command holds. -/
theorem c1_watchdog_zero_velocity (s : ServerState) (now : ℚ)
    (hv : s.vehiclePresent = true) (ha : s.armed = true)
    (ht : s.takeoff_in_progress = false) (hl : s.landing_in_progress = false)
    (hm : s.modeName.getD "" ∈ (["GUIDED", "GUIDED_NOGPS", "BRAKE", "POSHOLD"] : List String))
    (hage : now - s.last_joystick_time > VELOCITY_TIMEOUT) :
    (control_tick s now).1 =
      some { time_boot_ms := 0, frame := 1, type_mask := 0b0000111111000111,
             vx := 0, vy := 0, vz := 0, yaw := 0, yaw_rate := 0 } := by
  simp [control_tick, send_ned_velocity, hv, ha, ht, hl, hm, hage]

/-- Witness for C1 at a concrete state: armed, GUIDED, a stale non-zero
joystick command (age 0.6 s > 0.5 s) still yields the zero vector. -/
theorem c1_watchdog_zero_velocity_witness :
    ((3:ℚ)/5 - 0 > VELOCITY_TIMEOUT) ∧
    (control_tick
        { vehiclePresent := true, armed := true, modeName := some "GUIDED",
          takeoff_in_progress := false, landing_in_progress := false,
          altitude := some 1, last_velocity_cmd := { vx := 1, vy := 2, vz := 3, yaw_rate := 4 },
          last_joystick_time := 0 } (3/5)).1 =
      some { time_boot_ms := 0, frame := 1, type_mask := 0b0000111111000111,
             vx := 0, vy := 0, vz := 0, yaw := 0, yaw_rate := 0 } := by
  refine ⟨by norm_num [VELOCITY_TIMEOUT], ?_⟩
  exact c1_watchdog_zero_velocity _ _ rfl rfl rfl rfl (by decide)
    (by norm_num [VELOCITY_TIMEOUT])

/-- C2: a control-loop tick sends no velocity message at all while a takeoff
or a landing is in progress, for every value of the remaining shared state
(so in particular for any history of joystick updates). -/
theorem c2_no_velocity_during_phases (s : ServerState) (now : ℚ)
    (h : s.takeoff_in_progress = true ∨ s.landing_in_progress = true) :
    (control_tick s now).1 = none := by
  rcases h with h | h <;> simp [control_tick, h]

/-- Witness for C2: with a takeoff in progress, an armed GUIDED vehicle and
a fresh non-zero joystick command, the tick still sends nothing. -/
theorem c2_no_velocity_during_phases_witness :
    (control_tick
        { vehiclePresent := true, armed := true, modeName := some "GUIDED",
          takeoff_in_progress := true, landing_in_progress := false,
          altitude := some 1, last_velocity_cmd := { vx := 1, vy := 0, vz := 0, yaw_rate := 0 },
          last_joystick_time := 0 } 0).1 = none :=
  c2_no_velocity_during_phases _ _ (Or.inl rfl)

/-- C3 (code bug): with the vehicle armed, mode LAND, a landing in progress
and altitude 0.1 m (at or below the 0.2 m threshold), the tick leaves
`landing_in_progress` set: the in-progress guard at the top of the loop
body `continue`s before the LAND-mode altitude branch can run, so the
clearing code is unreachable and the claimed LandingInProgress→Idle
transition never happens. -/
theorem c3_landing_flag_not_cleared :
    (control_tick
        { vehiclePresent := true, armed := true, modeName := some "LAND",
          takeoff_in_progress := false, landing_in_progress := true,
          altitude := some (1/10), last_velocity_cmd := { vx := 0, vy := 0, vz := 0, yaw_rate := 0 },
          last_joystick_time := 0 } 100).2.landing_in_progress = true := by
  decide

/-- C7 counterexample: with the vehicle available, altitude 1.0 m (above
the 0.2 m guard) but the vehicle already disarmed, `disarm_vehicle` returns
success, not failure: the already-disarmed early return precedes the
altitude guard, so the claim's "always, for every prior armed state" is
false. -/
theorem c7_disarmed_returns_success :
    safe_alt (some 1) > 1/5 ∧ (disarm_vehicle true false (some 1) false).1 = true := by
  refine ⟨by norm_num [safe_alt], ?_⟩
  unfold disarm_vehicle
  rw [if_neg (by simp), if_pos (by simp)]

/-- C7 amended: with the vehicle available and altitude above 0.2 m,
`disarm_vehicle` leaves the armed state unchanged and issues no
`vehicle.armed` write; it returns failure when the vehicle is armed, and
success (idempotently) when it is already disarmed. -/
theorem c7_disarm_guard (altReading : Option ℚ) (disarmConfirmed : Bool)
    (h : safe_alt altReading > 1/5) :
    disarm_vehicle true true altReading disarmConfirmed = (false, true, 0) ∧
    disarm_vehicle true false altReading disarmConfirmed = (true, false, 0) := by
  refine ⟨?_, ?_⟩
  · unfold disarm_vehicle
    rw [if_neg (by simp), if_neg (by simp), if_pos h]
  · unfold disarm_vehicle
    rw [if_neg (by simp), if_pos (by simp)]

/-- Witness for C7 amended, at altitude 1.0 m. -/
theorem c7_disarm_guard_witness :
    safe_alt (some 1) > 1/5 ∧
    disarm_vehicle true true (some 1) true = (false, true, 0) ∧
    disarm_vehicle true false (some 1) true = (true, false, 0) :=
  ⟨by norm_num [safe_alt], c7_disarm_guard (some 1) true (by norm_num [safe_alt])⟩

/-- C9: when the entry read of `vehicle.mode.name` already equals the
(upper-cased) target, `ensure_mode` returns success at once with zero mode
writes — for every `attempts` value, since the early return precedes the
retry loop. -/
theorem c9_ensure_mode_idempotent (env : ModeEnv) (target : String)
    (attempts : PyVal) (h : env.initialMode = some (pyUpper target)) :
    ensure_mode true env target attempts = Except.ok (true, 0) := by
  simp [ensure_mode, h]

/-- Witness for C9: a vehicle already in GUIDED, target GUIDED. -/
theorem c9_ensure_mode_idempotent_witness :
    ensure_mode true { initialMode := some "GUIDED", pollSeesTarget := fun _ => false }
      "GUIDED" (PyVal.int 3) = Except.ok (true, 0) :=
  c9_ensure_mode_idempotent _ "GUIDED" (PyVal.int 3) (by decide)

/-- C4 counterexample: a fresh stored command with yaw_rate 5 is forwarded
as a message whose yaw_rate slot is 0, because `send_ned_velocity` encodes
a literal 0 there — so the forwarded command does not equal the stored one
in all four components. -/
theorem c4_stored_yaw_rate_not_forwarded :
    (control_tick
        { vehiclePresent := true, armed := true, modeName := some "GUIDED",
          takeoff_in_progress := false, landing_in_progress := false,
          altitude := some 1, last_velocity_cmd := { vx := 2, vy := 3, vz := 4, yaw_rate := 5 },
          last_joystick_time := 0 } 0).1 =
      some { time_boot_ms := 0, frame := 1, type_mask := 0b0000111111000111,
             vx := 2, vy := 3, vz := 4, yaw := 0, yaw_rate := 0 } ∧
    (0 : ℚ) ≠ 5 := by
  refine ⟨?_, by norm_num⟩
  have hage : ¬ (VELOCITY_TIMEOUT < (0:ℚ)) := by norm_num [VELOCITY_TIMEOUT]
  simp [control_tick, send_ned_velocity, hage]

/-- C4 amended: under the same tick conditions with command age at most the
0.5 s watchdog, the message forwarded to the vehicle carries the stored
command's vx, vy and vz exactly, and 0 in its yaw_rate slot regardless of
the stored yaw_rate (`send_ned_velocity` encodes a literal 0 there). -/
theorem c4_forward_stored_velocity (s : ServerState) (now : ℚ)
    (hv : s.vehiclePresent = true) (ha : s.armed = true)
    (ht : s.takeoff_in_progress = false) (hl : s.landing_in_progress = false)
    (hm : s.modeName.getD "" ∈ (["GUIDED", "GUIDED_NOGPS", "BRAKE", "POSHOLD"] : List String))
    (hage : now - s.last_joystick_time ≤ VELOCITY_TIMEOUT) :
    (control_tick s now).1 =
      some { time_boot_ms := 0, frame := 1, type_mask := 0b0000111111000111,
             vx := s.last_velocity_cmd.vx, vy := s.last_velocity_cmd.vy,
             vz := s.last_velocity_cmd.vz, yaw := 0, yaw_rate := 0 } := by
  have hage' : ¬ (now - s.last_joystick_time > VELOCITY_TIMEOUT) := not_lt.mpr hage
  simp [control_tick, send_ned_velocity, hv, ha, ht, hl, hm, hage']

/-- Witness for C4 amended: in GUIDED with a fresh command (age 0.1 s),
the stored vx, vy, vz are forwarded and the yaw_rate slot carries 0. -/
theorem c4_forward_stored_velocity_witness :
    ((1:ℚ)/10 - 0 ≤ VELOCITY_TIMEOUT) ∧
    (control_tick
        { vehiclePresent := true, armed := true, modeName := some "POSHOLD",
          takeoff_in_progress := false, landing_in_progress := false,
          altitude := some 1, last_velocity_cmd := { vx := 1, vy := -2, vz := 3, yaw_rate := 0 },
          last_joystick_time := 0 } (1/10)).1 =
      some { time_boot_ms := 0, frame := 1, type_mask := 0b0000111111000111,
             vx := 1, vy := -2, vz := 3, yaw := 0, yaw_rate := 0 } := by
  refine ⟨by norm_num [VELOCITY_TIMEOUT], ?_⟩
  exact c4_forward_stored_velocity _ _ rfl rfl rfl rfl (by decide)
    (by norm_num [VELOCITY_TIMEOUT])

/-- C5 (code bug): `do_takeoff` on a grounded vehicle that is not already
in GUIDED raises a TypeError instead of switching mode with a
GUIDED_NOGPS fallback: the call `ensure_mode("GUIDED", "GUIDED_NOGPS")`
binds the fallback string to the `attempts` parameter, and `range` rejects
it — the claimed short-circuiting, never-raising step sequence dies before
its first mode attempt. -/
theorem c5_takeoff_mode_switch_raises :
    do_takeoff true
      { altReading := some 0,
        modeEnv := { initialMode := some "STABILIZE", pollSeesTarget := fun _ => false },
        armed := false, armConfirmed := false, simple_takeoff_raises := false }
      (3/2) { takeoff_in_progress := false, takeoff_target_alt := none } =
    (TakeoffOutcome.raised (PyErr.typeError "range() integer end argument expected, got str."),
     { takeoff_in_progress := false, takeoff_target_alt := none }) := by
  have hmode : ensure_mode true
      { initialMode := some "STABILIZE", pollSeesTarget := fun _ => false }
      "GUIDED" (PyVal.str "GUIDED_NOGPS") =
      Except.error (PyErr.typeError "range() integer end argument expected, got str.") := by
    unfold ensure_mode
    rw [if_neg (by simp), if_neg (by decide)]
  unfold do_takeoff
  rw [if_neg (by simp), if_neg (by norm_num [safe_alt]), hmode]

/-- One successful poll ends the watcher loop at that poll index. -/
theorem watcherRun_reached (altTrace : Nat → Option ℚ) (target : ℚ) (k i : Nat)
    (h : safe_alt (altTrace i) ≥ target * (49/50)) :
    watcherRun altTrace target (k + 1) i = WatcherExit.reached i := by
  unfold watcherRun
  rw [if_pos h]

/-- C6 counterexample: a successful takeoff to 1.5 m sets the flags, and
the watcher, once the target band is reached, clears `takeoff_in_progress`
but leaves `takeoff_target_alt` at `some 1.5` — the target is not cleared
on the monitor's exit, contradicting the claim. -/
theorem c6_takeoff_target_persists :
    (do_takeoff true
      { altReading := some 0,
        modeEnv := { initialMode := some "GUIDED", pollSeesTarget := fun _ => false },
        armed := true, armConfirmed := true, simple_takeoff_raises := false }
      (3/2) { takeoff_in_progress := false, takeoff_target_alt := none } =
      (TakeoffOutcome.started,
       { takeoff_in_progress := true, takeoff_target_alt := some (3/2) })) ∧
    (watcher_final (fun _ => some 2) (3/2) 60
      { takeoff_in_progress := true, takeoff_target_alt := some (3/2) } =
      (WatcherExit.reached 0,
       { takeoff_in_progress := false, takeoff_target_alt := some (3/2) })) ∧
    (some ((3:ℚ)/2) ≠ none) := by
  refine ⟨?_, ?_, by simp⟩
  · have hmode : ensure_mode true
        { initialMode := some "GUIDED", pollSeesTarget := fun _ => false }
        "GUIDED" (PyVal.str "GUIDED_NOGPS") = Except.ok (true, 0) := by
      unfold ensure_mode
      rw [if_neg (by simp), if_pos (by decide)]
    unfold do_takeoff
    rw [if_neg (by simp), if_neg (by norm_num [safe_alt]), hmode]
    simp [arm_vehicle]
  · have h60 : watcherRun (fun _ => some 2) (3/2) 60 0 = WatcherExit.reached 0 :=
      watcherRun_reached _ _ 59 0 (by norm_num [safe_alt])
    unfold watcher_final
    rw [h60]

/-- C6 amended: on every exit of the watcher (target band reached or fuel
exhausted, i.e. the 30 s timeout) the final flags have
`takeoff_in_progress` cleared, while `takeoff_target_alt` keeps exactly the
value it had — the watcher never clears the takeoff target. -/
theorem c6_watcher_clears_only_phase (altTrace : Nat → Option ℚ) (target : ℚ)
    (fuel : Nat) (flags : TakeoffFlags) :
    ((watcher_final altTrace target fuel flags).2.takeoff_in_progress = false) ∧
    ((watcher_final altTrace target fuel flags).2.takeoff_target_alt =
      flags.takeoff_target_alt) :=
  ⟨rfl, rfl⟩

/-- C10: an unreadable altitude is treated as being on the ground:
`safe_alt` yields 0 on a failed reading, so the in-flight guard of
`disarm_vehicle` does not trigger (the disarm writes `vehicle.armed` and
proceeds to its poll), and `do_takeoff` never takes its already-airborne
rejection branch. -/
theorem c10_unreadable_altitude_treated_as_ground :
    (safe_alt none = 0) ∧
    (∀ disarmConfirmed : Bool,
      disarm_vehicle true true none disarmConfirmed =
        (disarmConfirmed, !disarmConfirmed, 1)) ∧
    (∀ (modeEnv : ModeEnv) (armed armConfirmed craise : Bool)
       (target_alt : ℚ) (flags : TakeoffFlags),
      (do_takeoff true
        { altReading := none, modeEnv := modeEnv, armed := armed,
          armConfirmed := armConfirmed, simple_takeoff_raises := craise }
        target_alt flags).1 ≠ TakeoffOutcome.alreadyAirborne) := by
  refine ⟨rfl, ?_, ?_⟩
  · intro disarmConfirmed
    unfold disarm_vehicle
    rw [if_neg (by simp), if_neg (by simp), if_neg (by norm_num [safe_alt])]
  · intro modeEnv armed armConfirmed craise target_alt flags
    unfold do_takeoff
    rw [if_neg (by simp), if_neg (by norm_num [safe_alt])]
    rcases hE : ensure_mode true modeEnv "GUIDED" (PyVal.str "GUIDED_NOGPS") with e | p
    · simp
    · rcases p with ⟨mok, w⟩
      by_cases hm : mok <;> by_cases hr : craise <;>
        simp [hm, hr] <;> split <;> simp

/-- An `ensure_mode` call whose `attempts` argument is an actual int (the
declared default) never raises. -/
theorem ensure_mode_int_eq (vp : Bool) (env : ModeEnv) (target : String) (n : Nat) :
    ensure_mode vp env target (PyVal.int n) =
      Except.ok (if vp = false then (false, 0)
                 else if env.initialMode = some (pyUpper target) then (true, 0)
                 else attemptLoop env.pollSeesTarget n 0 0) := by
  unfold ensure_mode
  rcases vp with _ | _
  · rfl
  · by_cases h : env.initialMode = some (pyUpper target) <;> simp [h]

/-- C8 counterexample: a well-formed "diag" command is answered with a
single reply of type "diag_reply", which is not of the claimed
acknowledgement shape — so not every well-formed command gets an
`{"type":"ack",...}` reply. -/
theorem c8_diag_reply_not_ack :
    ((on_message
        { vehiclePresent := true, armed := true, modeRead := some "GUIDED",
          modeEnv := { initialMode := some "GUIDED", pollSeesTarget := fun _ => false },
          armConfirmed := true, disarmConfirmed := true, altReading := some 0 }
        { last_velocity_cmd := { vx := 0, vy := 0, vz := 0, yaw_rate := 0 },
          last_joystick_time := 0, landing_in_progress := false }
        0 (InMsg.cmd Command.diag)).1 = [Reply.diag_reply]) ∧
    isAckReply Reply.diag_reply = false :=
  ⟨rfl, rfl⟩

/-- C8 amended: malformed JSON gets exactly one reply of type "error";
every well-formed command gets exactly one reply; for every command other
than "diag" that reply is an acknowledgement
`{"type":"ack","cmd":...,"ok":...}` whose cmd field echoes the request
type; a "diag" command is always answered with the single reply
"diag_reply" instead; and an unknown command type always gets the negative
acknowledgement (its type echoed, ok = false). -/
theorem c8_replies_one_per_message :
    (∀ (env : RouterEnv) (st : CmdState) (now : ℚ),
      (on_message env st now InMsg.malformed).1 = [Reply.error "invalid json"]) ∧
    (∀ (env : RouterEnv) (st : CmdState) (now : ℚ) (c : Command),
      (on_message env st now (InMsg.cmd c)).1.length = 1) ∧
    (∀ (env : RouterEnv) (st : CmdState) (now : ℚ) (c : Command),
      c = Command.diag ∨
        ∃ ok, (on_message env st now (InMsg.cmd c)).1 = [Reply.ack (cmdName c) ok]) ∧
    (∀ (env : RouterEnv) (st : CmdState) (now : ℚ),
      (on_message env st now (InMsg.cmd Command.diag)).1 = [Reply.diag_reply]) ∧
    (∀ (env : RouterEnv) (st : CmdState) (now : ℚ) (typ : String),
      (on_message env st now (InMsg.cmd (Command.unknown typ))).1 =
        [Reply.ack typ false]) := by
  refine ⟨fun env st now => rfl, fun env st now c => ?_,
    fun env st now c => ?_, fun env st now => rfl, fun env st now typ => rfl⟩
  · cases c <;> simp only [on_message, ensure_mode_int_eq] <;>
      rcases env.modeRead with _ | mode_name <;> (repeat' split) <;> rfl
  · cases c with
    | diag => exact Or.inl rfl
    | joystick vx vy vz yaw_rate =>
        refine Or.inr ?_
        simp only [on_message, cmdName]
        (repeat' split) <;> exact ⟨_, rfl⟩
    | mode mstr =>
        refine Or.inr ?_
        simp only [on_message, cmdName, ensure_mode_int_eq]
        (repeat' split) <;> exact ⟨_, rfl⟩
    | arm => exact Or.inr ⟨_, rfl⟩
    | disarm => exact Or.inr ⟨_, rfl⟩
    | takeoff alt => exact Or.inr ⟨true, rfl⟩
    | land =>
        refine Or.inr ?_
        simp only [on_message, cmdName, ensure_mode_int_eq]
        exact ⟨_, rfl⟩
    | brake =>
        refine Or.inr ?_
        simp only [on_message, cmdName, ensure_mode_int_eq]
        rcases env.modeRead with _ | mode_name <;> (repeat' split) <;> exact ⟨_, rfl⟩
    | unknown typ => exact Or.inr ⟨false, rfl⟩
